import Mathlib

/-!
Verification of `src/align.py`, the alignment step wrapper of the
rna-seq-pipeline repository.

The script's logic is embedded shallowly:

* the two STAR command templates (`command_string` of `SingleEndedStarAligner`
  and `PairedEndStarAligner`) are Python triple-quoted literals with
  backslash-newline continuations; after the continuations are spliced the
  literal is a single line in which each joint contributes the one space
  before the backslash plus the four spaces of indentation of the next
  source line.  Python's `str.format` parses such a literal into an
  alternation of literal pieces and named replacement fields and substitutes
  each field once; that parsed form is what the `Seg` lists below record,
  and `pyFormat` is exactly that substitution.
* `shlex.split` is called on strings whose only shlex-special characters can
  come from the substituted paths.  `shlex_split` below models
  `shlex.split` in POSIX whitespace-split mode for inputs containing no
  quote, double-quote or backslash character: on such inputs `shlex.split`
  is precisely "split on the whitespace characters space, tab, carriage
  return and newline, dropping empty pieces".  Theorems about command
  vectors carry this no-special-character hypothesis on the substituted
  paths.
* `argparse` is modelled at the level of which options were provided with
  which values (`Provided`); `parse_args` checks the `required=True` flags
  and the `choices` lists and fills in the declared defaults, succeeding or
  failing exactly when `argparse` would.
* a whole invocation is `run_program`: argparse, then `main` (extraction via
  `archive.extractall()`, `make_aligner`, `aligner.run()`).  Python exits 2
  on an argparse usage error, 1 on an uncaught exception, and 0 when the
  script runs to completion; `StarAligner.run` discards the value of
  `subprocess.call`, so the child's exit status never reaches the
  interpreter's own exit.
-/

/-- The whitespace characters of `shlex.whitespace`, namely space, tab,
carriage return and newline. -/
def isShWs (c : Char) : Bool :=
  c = ' ' || c = '\t' || c = '\r' || c = '\n'

/-- Accumulator-based whitespace splitting: `acc` holds the characters of the
current word in reverse.  Empty pieces are never produced. -/
def splitWsAcc : List Char → List Char → List String
  | [], acc => if acc = [] then [] else [String.mk acc.reverse]
  | c :: cs, acc =>
    if isShWs c then
      if acc = [] then splitWsAcc cs []
      else String.mk acc.reverse :: splitWsAcc cs []
    else splitWsAcc cs (c :: acc)

/-- Model of `shlex.split` (POSIX mode, `whitespace_split`) for inputs free of
the quoting characters: splitting on runs of shlex whitespace. -/
def shlex_split (s : String) : List String :=
  splitWsAcc s.data []

/-- True when the string contains none of the characters that are special to
`shlex.split` in POSIX whitespace-split mode (single quote, double quote,
backslash).  On command strings whose substituted values satisfy this,
`shlex_split` agrees with Python's `shlex.split`. -/
def shlexPlain (s : String) : Bool :=
  s.data.all fun c => ¬ (c = '\'' || c = '"' || c = '\\')

/-- One piece of a parsed `str.format` template: either a literal run of
characters or a named replacement field. -/
inductive Seg where
  | lit (s : String)
  | field (name : String)
deriving DecidableEq

/-- Python's `str.format` on a parsed template: literals are emitted verbatim
and each replacement field is looked up in the keyword-argument environment.
(The templates below only ever mention fields their callers supply, so the
lookup never falls through.) -/
def pyFormat (env : String → String) : List Seg → String
  | [] => ""
  | .lit s :: rest => s ++ pyFormat env rest
  | .field n :: rest => env n ++ pyFormat env rest

/-- The literal of `SingleEndedStarAligner.command_string` between the
`ncpus` and `ramGB` fields, continuations spliced. -/
def singleMidLit : String :=
  "     --genomeLoad NoSharedMemory     --outFilterMultimapNmax 20     --alignSJoverhangMin 8     --alignSJDBoverhangMin 1     --outFilterMismatchNmax 999     --outFilterMismatchNoverReadLmax 0.04     --alignIntronMin 20     --alignIntronMax 1000000     --alignMatesGapMax 1000000     --outSAMheaderCommentFile COfile.txt     --outSAMheaderHD @HD VN:1.4 SO:coordinate     --outSAMunmapped Within     --outFilterType BySJout     --outSAMattributes NH HI AS NM MD     --outSAMstrandField intronMotif     --outSAMtype BAM SortedByCoordinate      --quantMode TranscriptomeSAM     --sjdbScore 1     --limitBAMsortRAM "

/-- The literal of `PairedEndStarAligner.command_string` between the `ncpus`
and `ramGB` fields, continuations spliced.  It differs from the single-ended
one: no `--outSAMstrandField intronMotif`, and a single space after
`SortedByCoordinate`. -/
def pairedMidLit : String :=
  "     --genomeLoad NoSharedMemory     --outFilterMultimapNmax 20     --alignSJoverhangMin 8     --alignSJDBoverhangMin 1     --outFilterMismatchNmax 999     --outFilterMismatchNoverReadLmax 0.04     --alignIntronMin 20     --alignIntronMax 1000000     --alignMatesGapMax 1000000     --outSAMheaderCommentFile COfile.txt     --outSAMheaderHD @HD VN:1.4 SO:coordinate     --outSAMunmapped Within     --outFilterType BySJout     --outSAMattributes NH HI AS NM MD     --outSAMtype BAM SortedByCoordinate     --quantMode TranscriptomeSAM     --sjdbScore 1     --limitBAMsortRAM "

/-- `SingleEndedStarAligner.command_string`, as parsed by `str.format`. -/
def singleCommandString : List Seg :=
  [.lit "STAR --genomeDir ", .field "indexdir",
   .lit "     --readFilesIn ", .field "infastq",
   .lit "     --readFilesCommand zcat     --runThreadN ", .field "ncpus",
   .lit singleMidLit, .field "ramGB",
   .lit "000000000"]

/-- `PairedEndStarAligner.command_string`, as parsed by `str.format`. -/
def pairedCommandString : List Seg :=
  [.lit "STAR --genomeDir ", .field "indexdir",
   .lit "     --readFilesIn ", .field "read1_fq_gz",
   .lit " ", .field "read2_fq_gz",
   .lit "     --readFilesCommand zcat     --runThreadN ", .field "ncpus",
   .lit pairedMidLit, .field "ramGB",
   .lit "000000000"]

/-- The keyword arguments of `SingleEndedStarAligner.format_command_string`:
`infastq`, `ncpus`, `ramGB`, `indexdir` (integers rendered by `str`). -/
def singleFormatEnv (input_fastq : String) (ncpus ramGB : Int) (indexdir : String) :
    String → String :=
  fun n =>
    if n = "infastq" then input_fastq
    else if n = "ncpus" then toString ncpus
    else if n = "ramGB" then toString ramGB
    else if n = "indexdir" then indexdir
    else ""

/-- The keyword arguments of `PairedEndStarAligner.format_command_string`. -/
def pairedFormatEnv (fastq_read1 fastq_read2 : String) (ncpus ramGB : Int)
    (indexdir : String) : String → String :=
  fun n =>
    if n = "read1_fq_gz" then fastq_read1
    else if n = "read2_fq_gz" then fastq_read2
    else if n = "ncpus" then toString ncpus
    else if n = "ramGB" then toString ramGB
    else if n = "indexdir" then indexdir
    else ""

/-- The runtime errors the script can raise while building an aligner:
subscripting `None` raises `TypeError`, subscripting a too-short list raises
`IndexError`. -/
inductive PyError where
  | typeError
  | indexError
deriving DecidableEq

/-- State of a constructed `SingleEndedStarAligner`. -/
structure SingleEndedStarAligner where
  ncpus : Int
  ramGB : Int
  indexdir : String
  input_fastq : String
  command : List String
deriving DecidableEq

/-- State of a constructed `PairedEndStarAligner`. -/
structure PairedEndStarAligner where
  ncpus : Int
  ramGB : Int
  indexdir : String
  fastq_read1 : String
  fastq_read2 : String
  command : List String
deriving DecidableEq

/-- A constructed aligner is an instance of one of the two concrete
subclasses of the abstract `StarAligner`. -/
inductive StarAligner where
  | singleEnded (a : SingleEndedStarAligner)
  | pairedEnd (a : PairedEndStarAligner)
deriving DecidableEq

/-- The `command` attribute both subclasses set in `__init__`. -/
def StarAligner.command : StarAligner → List String
  | .singleEnded a => a.command
  | .pairedEnd a => a.command

/-- `SingleEndedStarAligner.__init__`: reads `fastqs[0]` (TypeError when
`fastqs` is `None`, IndexError when it is an empty list), then builds
`self.command` by formatting the class template and shlex-splitting it. -/
def SingleEndedStarAligner.create (fastqs : Option (List String))
    (ncpus ramGB : Int) (indexdir : String) :
    Except PyError SingleEndedStarAligner :=
  match fastqs with
  | none => .error .typeError
  | some fs =>
    match fs.get? 0 with
    | none => .error .indexError
    | some fq0 =>
      .ok { ncpus := ncpus, ramGB := ramGB, indexdir := indexdir,
            input_fastq := fq0,
            command := shlex_split
              (pyFormat (singleFormatEnv fq0 ncpus ramGB indexdir)
                singleCommandString) }

/-- `PairedEndStarAligner.__init__`: reads `fastqs[0]` and `fastqs[1]`
(TypeError when `fastqs` is `None`, IndexError when the list has fewer than
two elements), then builds `self.command` from the paired template. -/
def PairedEndStarAligner.create (fastqs : Option (List String))
    (ncpus ramGB : Int) (indexdir : String) :
    Except PyError PairedEndStarAligner :=
  match fastqs with
  | none => .error .typeError
  | some fs =>
    match fs.get? 0 with
    | none => .error .indexError
    | some fq0 =>
      match fs.get? 1 with
      | none => .error .indexError
      | some fq1 =>
        .ok { ncpus := ncpus, ramGB := ramGB, indexdir := indexdir,
              fastq_read1 := fq0, fastq_read2 := fq1,
              command := shlex_split
                (pyFormat (pairedFormatEnv fq0 fq1 ncpus ramGB indexdir)
                  pairedCommandString) }

/-- The namespace the script reads from `argparse.parse_args()`. -/
structure Args where
  fastqs : Option (List String)
  aligner : String
  index : String
  indexdir : String
  endedness : String
  libraryid : String
  bamroot : String
  ncpus : Int
  ramGB : Int
deriving DecidableEq

/-- `make_aligner`: dispatches on `args.aligner` and `args.endedness`;
returns `None` (modelled `Option.none`) for any combination other than
star/single and star/paired, and propagates the constructor's exception. -/
def make_aligner (args : Args) : Except PyError (Option StarAligner) :=
  if args.aligner = "star" then
    if args.endedness = "single" then
      (SingleEndedStarAligner.create args.fastqs args.ncpus args.ramGB
        args.indexdir).map (fun a => some (.singleEnded a))
    else if args.endedness = "paired" then
      (PairedEndStarAligner.create args.fastqs args.ncpus args.ramGB
        args.indexdir).map (fun a => some (.pairedEnd a))
    else .ok none
  else .ok none

/-- Which options an invocation supplied on the command line, with their
values.  `none` means the flag was absent.  `argparse` gives every option of
this script a long-option form only, so a command line is faithfully
described by this record. -/
structure Provided where
  fastqs : Option (List String)
  aligner : Option String
  index : Option String
  indexdir : Option String
  endedness : Option String
  libraryid : Option String
  bamroot : Option String
  ncpus : Option Int
  ramGB : Option Int
deriving DecidableEq

/-- The argparse configuration of the script: `--aligner`, `--index` and
`--endedness` carry `required=True`; `--aligner` restricts choices to
star/tophat and `--endedness` to paired/single; `--indexdir`, `--libraryid`,
`--bamroot`, `--ncpus`, `--ramGB` have defaults out, libraryID, out_bam, 4
and 8; `--fastqs` has `nargs` plus but no `required` flag, so an absent
`--fastqs` parses to `None`.  On any missing required flag or invalid choice
`argparse` prints a usage message and exits with status 2. -/
def parse_args (p : Provided) : Except String Args :=
  match p.aligner with
  | none => .error "the following arguments are required: --aligner"
  | some al =>
    if al = "star" ∨ al = "tophat" then
      match p.index with
      | none => .error "the following arguments are required: --index"
      | some ix =>
        match p.endedness with
        | none => .error "the following arguments are required: --endedness"
        | some e =>
          if e = "paired" ∨ e = "single" then
            .ok { fastqs := p.fastqs, aligner := al, index := ix,
                  indexdir := p.indexdir.getD "out", endedness := e,
                  libraryid := p.libraryid.getD "libraryID",
                  bamroot := p.bamroot.getD "out_bam",
                  ncpus := p.ncpus.getD 4, ramGB := p.ramGB.getD 8 }
          else .error "argument --endedness: invalid choice"
    else .error "argument --aligner: invalid choice"

/-- The entry type of a tar member, as recorded in its header.
`TarInfo.isfile` is true exactly for regular members. -/
inductive TarType where
  | reg
  | dir
  | sym
  | lnk
  | fifo
  | chr
  | blk
deriving DecidableEq

/-- One member of the index tar archive: its stored path and its type. -/
structure TarMember where
  name : String
  type : TarType
deriving DecidableEq

/-- `TarInfo.isfile()`: the member is a regular file. -/
def TarMember.isfile (m : TarMember) : Bool :=
  m.type = .reg

/-- POSIX `os.path.basename`: everything after the last slash (the whole
string when there is no slash, empty when the string ends in a slash). -/
def basename (p : String) : String :=
  String.mk ((p.data.reverse.takeWhile fun c => c ≠ '/').reverse)

/-- POSIX `os.path.join` on two components, as in `posixpath.join`: an
absolute second component replaces the first; otherwise a slash is inserted
unless the first component is empty or already ends in a slash. -/
def path_join (a b : String) : String :=
  if b.data.take 1 = ['/'] then b
  else if a = "" ∨ a.data.getLast? = some '/' then a ++ b
  else a ++ "/" ++ b

/-- `make_modified_TarInfo`: iterate over `archive.getmembers()`, keep the
members satisfying `isfile()`, and rewrite each kept member's `name` to
`os.path.join(target_dir, os.path.basename(member.name))`. -/
def make_modified_TarInfo (archive : List TarMember) (target_dir : String) :
    List TarMember :=
  match archive with
  | [] => []
  | m :: rest =>
    if m.isfile then
      { m with name := path_join target_dir (basename m.name) } ::
        make_modified_TarInfo rest target_dir
    else make_modified_TarInfo rest target_dir

/-- `archive.extractall()` with no arguments, as called in `main`: every
member is extracted at its stored path, relative to the current working
directory, directories included; the paths created are just the member
names. -/
def extractall (archive : List TarMember) : List String :=
  archive.map TarMember.name

/-- Observable outcome of one invocation of the script: the filesystem paths
the extraction step created (empty when extraction was never reached), the
argument vector handed to `subprocess.call` (none when no child was
launched), and the interpreter's exit status. -/
structure ExecTrace where
  extractedPaths : List String
  launched : Option (List String)
  exitCode : Int
deriving DecidableEq

/-- One whole run of the script on a command line `p`, where the file named
by `--index` holds the archive `archive` and, were STAR launched, the child
would exit with status `childExit`.

Stages, following `__main__` and `main`:
argparse failure exits 2 before anything else; otherwise `main` first
extracts the archive with `archive.extractall()`, then calls `make_aligner`.
A constructor exception (TypeError/IndexError) is uncaught, exiting 1; when
`make_aligner` falls through and returns `None`, `aligner.run()` raises
AttributeError, also uncaught, exiting 1.  Otherwise `run` launches the
command with `subprocess.call` and discards the returned status, `main`
returns, and the interpreter exits 0 whatever `childExit` was.  `py_main`
is the script's `main`, the extraction-and-alignment stage run on parsed
arguments. -/
def py_main (args : Args) (archive : List TarMember) (childExit : Int) :
    ExecTrace :=
  let paths := extractall archive
  match make_aligner args with
  | .error _ => { extractedPaths := paths, launched := none, exitCode := 1 }
  | .ok none => { extractedPaths := paths, launched := none, exitCode := 1 }
  | .ok (some a) =>
    let _returncode := childExit
    { extractedPaths := paths, launched := some a.command, exitCode := 0 }

/-- The `__main__` block: parse, then `main`. -/
def run_program (p : Provided) (archive : List TarMember) (childExit : Int) :
    ExecTrace :=
  match parse_args p with
  | .error _ => { extractedPaths := [], launched := none, exitCode := 2 }
  | .ok args => py_main args archive childExit

/-- Fixture: a nested index archive, as in the spec's example (a top
directory `out` with a file at its root and one in a subdirectory). -/
def sampleArchive : List TarMember :=
  [{ name := "out", type := .dir },
   { name := "out/genomeParameters.txt", type := .reg },
   { name := "out/sub", type := .dir },
   { name := "out/sub/SA", type := .reg }]

/-- Fixture: a fully specified paired-end command line requesting extraction
into `myidx`, with ncpus 8 and ramGB 16. -/
def goodProvided : Provided :=
  { fastqs := some ["rep1.fastq.gz", "rep2.fastq.gz"], aligner := some "star",
    index := some "index.tgz", indexdir := some "myidx",
    endedness := some "paired", libraryid := none, bamroot := none,
    ncpus := some 8, ramGB := some 16 }

/-- The token list `l` contains the tokens `a` and `b` contiguously, in this
order. -/
def ContainsPair (l : List String) (a b : String) : Prop :=
  ∃ pre post, l = pre ++ a :: b :: post

/-- Boolean checker for `ContainsPair`. -/
def hasPair : List String → String → String → Bool
  | x :: y :: rest, a, b => (x = a && y = b) || hasPair (y :: rest) a b
  | _, _, _ => false

theorem hasPair_sound : ∀ (l : List String) (a b : String),
    hasPair l a b = true → ContainsPair l a b
  | [], _, _, h => by simp [hasPair] at h
  | [_], _, _, h => by simp [hasPair] at h
  | x :: y :: rest, a, b, h => by
    rw [hasPair, Bool.or_eq_true] at h
    rcases h with h | h
    · rw [Bool.and_eq_true, decide_eq_true_eq, decide_eq_true_eq] at h
      exact ⟨[], rest, by rw [h.1, h.2]; rfl⟩
    · obtain ⟨pre, post, hp⟩ := hasPair_sound (y :: rest) a b h
      exact ⟨x :: pre, post, by rw [List.cons_append, hp]⟩

theorem ContainsPair.append_left {l₂ : List String} {a b : String}
    (l₁ : List String) (h : ContainsPair l₂ a b) : ContainsPair (l₁ ++ l₂) a b := by
  obtain ⟨pre, post, hp⟩ := h
  exact ⟨l₁ ++ pre, post, by rw [hp, List.append_assoc]⟩

/-- Splitting distributes over a whitespace character: nothing to the left of
an explicit space can merge with anything to its right. -/
theorem splitWsAcc_append_ws (y : List Char) :
    ∀ (x acc : List Char),
      splitWsAcc (x ++ ' ' :: y) acc = splitWsAcc x acc ++ splitWsAcc y [] := by
  intro x
  induction x with
  | nil =>
    intro acc
    have hws : isShWs ' ' = true := rfl
    by_cases h : acc = []
    · subst h; simp [splitWsAcc, hws]
    · simp [splitWsAcc, hws, h]
  | cons c x ih =>
    intro acc
    by_cases hw : isShWs c = true
    · by_cases ha : acc = []
      · subst ha; simp [splitWsAcc, hw, ih]
      · simp [splitWsAcc, hw, ha, ih]
    · simp [splitWsAcc, hw, ih]

/-- The single-ended command string with ncpus 8 and ramGB 16: the tokens
split as the (path-dependent) head up to the input FASTQ, followed by the
fixed tail of the template. -/
theorem single_tokens (fq idx : String) :
    shlex_split (pyFormat (singleFormatEnv fq 8 16 idx) singleCommandString) =
      splitWsAcc ("STAR --genomeDir ".data ++ (idx.data ++
          ("     --readFilesIn ".data ++ fq.data))) [] ++
        splitWsAcc ("    --readFilesCommand zcat     --runThreadN 8" ++
          singleMidLit ++ "16000000000").data [] := by
  have h1 : (pyFormat (singleFormatEnv fq 8 16 idx) singleCommandString).data =
      "STAR --genomeDir ".data ++ (idx.data ++ ("     --readFilesIn ".data ++
        (fq.data ++ ' ' :: ("    --readFilesCommand zcat     --runThreadN 8" ++
          singleMidLit ++ "16000000000").data))) := rfl
  rw [shlex_split, h1]
  rw [show "STAR --genomeDir ".data ++ (idx.data ++ ("     --readFilesIn ".data ++
      (fq.data ++ ' ' :: ("    --readFilesCommand zcat     --runThreadN 8" ++
        singleMidLit ++ "16000000000").data))) =
      ("STAR --genomeDir ".data ++ (idx.data ++ ("     --readFilesIn ".data ++
        fq.data))) ++ ' ' :: ("    --readFilesCommand zcat     --runThreadN 8" ++
        singleMidLit ++ "16000000000").data from by simp [List.append_assoc]]
  exact splitWsAcc_append_ws _ _ []

/-- The paired-end command string with ncpus 8 and ramGB 16: tokens split at
the space before each path and at the one opening the fixed tail. -/
theorem paired_tokens (fq1 fq2 idx : String) :
    shlex_split (pyFormat (pairedFormatEnv fq1 fq2 8 16 idx) pairedCommandString) =
      splitWsAcc ("STAR --genomeDir ".data ++ (idx.data ++
          ("     --readFilesIn ".data ++ fq1.data))) [] ++
        (splitWsAcc fq2.data [] ++
          splitWsAcc ("    --readFilesCommand zcat     --runThreadN 8" ++
            pairedMidLit ++ "16000000000").data []) := by
  have h1 : (pyFormat (pairedFormatEnv fq1 fq2 8 16 idx) pairedCommandString).data =
      "STAR --genomeDir ".data ++ (idx.data ++ ("     --readFilesIn ".data ++
        (fq1.data ++ ' ' :: (fq2.data ++
          ' ' :: ("    --readFilesCommand zcat     --runThreadN 8" ++
            pairedMidLit ++ "16000000000").data)))) := rfl
  rw [shlex_split, h1]
  rw [show "STAR --genomeDir ".data ++ (idx.data ++ ("     --readFilesIn ".data ++
      (fq1.data ++ ' ' :: (fq2.data ++
        ' ' :: ("    --readFilesCommand zcat     --runThreadN 8" ++
          pairedMidLit ++ "16000000000").data)))) =
      ("STAR --genomeDir ".data ++ (idx.data ++ ("     --readFilesIn ".data ++
        fq1.data))) ++ ' ' :: (fq2.data ++
        ' ' :: ("    --readFilesCommand zcat     --runThreadN 8" ++
          pairedMidLit ++ "16000000000").data) from by simp [List.append_assoc]]
  rw [splitWsAcc_append_ws, splitWsAcc_append_ws]

/-- Both resource flag/value pairs sit in the fixed tail of the single-ended
template. -/
theorem single_cmd_pairs (fq idx : String) :
    ContainsPair (shlex_split
        (pyFormat (singleFormatEnv fq 8 16 idx) singleCommandString))
      "--runThreadN" "8" ∧
    ContainsPair (shlex_split
        (pyFormat (singleFormatEnv fq 8 16 idx) singleCommandString))
      "--limitBAMsortRAM" "16000000000" := by
  rw [single_tokens]
  exact ⟨ContainsPair.append_left _ (hasPair_sound _ _ _ (by decide)),
    ContainsPair.append_left _ (hasPair_sound _ _ _ (by decide))⟩

/-- Both resource flag/value pairs sit in the fixed tail of the paired-end
template. -/
theorem paired_cmd_pairs (fq1 fq2 idx : String) :
    ContainsPair (shlex_split
        (pyFormat (pairedFormatEnv fq1 fq2 8 16 idx) pairedCommandString))
      "--runThreadN" "8" ∧
    ContainsPair (shlex_split
        (pyFormat (pairedFormatEnv fq1 fq2 8 16 idx) pairedCommandString))
      "--limitBAMsortRAM" "16000000000" := by
  rw [paired_tokens]
  exact ⟨ContainsPair.append_left _ (ContainsPair.append_left _
      (hasPair_sound _ _ _ (by decide))),
    ContainsPair.append_left _ (ContainsPair.append_left _
      (hasPair_sound _ _ _ (by decide)))⟩

/-- A successfully constructed single-ended aligner's command comes from the
single-ended template, formatted with its own input FASTQ. -/
theorem single_create_inv (fastqs : Option (List String)) (n r : Int)
    (idx : String) (sa : SingleEndedStarAligner)
    (h : SingleEndedStarAligner.create fastqs n r idx = .ok sa) :
    sa.command = shlex_split
      (pyFormat (singleFormatEnv sa.input_fastq n r idx) singleCommandString) := by
  rcases fastqs with _ | fs
  · simp [SingleEndedStarAligner.create] at h
  · simp only [SingleEndedStarAligner.create] at h
    rcases hg : fs.get? 0 with _ | fq0
    · rw [hg] at h; simp at h
    · rw [hg] at h
      simp only [Except.ok.injEq] at h
      subst h
      rfl

/-- A successfully constructed paired-end aligner's command comes from the
paired-end template, formatted with its own two FASTQ paths. -/
theorem paired_create_inv (fastqs : Option (List String)) (n r : Int)
    (idx : String) (pa : PairedEndStarAligner)
    (h : PairedEndStarAligner.create fastqs n r idx = .ok pa) :
    pa.command = shlex_split
      (pyFormat (pairedFormatEnv pa.fastq_read1 pa.fastq_read2 n r idx)
        pairedCommandString) := by
  rcases fastqs with _ | fs
  · simp [PairedEndStarAligner.create] at h
  · simp only [PairedEndStarAligner.create] at h
    rcases hg : fs.get? 0 with _ | fq0
    · rw [hg] at h; simp at h
    · rw [hg] at h
      rcases hg1 : fs.get? 1 with _ | fq1
      · rw [hg1] at h; simp at h
      · rw [hg1] at h
        simp only [Except.ok.injEq] at h
        subst h
        rfl

/-- Inversion of `make_aligner`: a constructed aligner is single-ended with
endedness single, or paired-end with endedness paired, built by the matching
constructor. -/
theorem make_aligner_cases (args : Args) (a : StarAligner)
    (h : make_aligner args = .ok (some a)) :
    (∃ sa, a = .singleEnded sa ∧ args.endedness = "single" ∧
      SingleEndedStarAligner.create args.fastqs args.ncpus args.ramGB
        args.indexdir = .ok sa) ∨
    (∃ pa, a = .pairedEnd pa ∧ args.endedness = "paired" ∧
      PairedEndStarAligner.create args.fastqs args.ncpus args.ramGB
        args.indexdir = .ok pa) := by
  unfold make_aligner at h
  by_cases h1 : args.aligner = "star"
  · rw [if_pos h1] at h
    by_cases h2 : args.endedness = "single"
    · rw [if_pos h2] at h
      cases hc : SingleEndedStarAligner.create args.fastqs args.ncpus
          args.ramGB args.indexdir with
      | error e => rw [hc] at h; simp [Except.map] at h
      | ok sa =>
        rw [hc] at h
        simp only [Except.map, Except.ok.injEq, Option.some.injEq] at h
        exact .inl ⟨sa, h.symm, h2, rfl⟩
    · rw [if_neg h2] at h
      by_cases h3 : args.endedness = "paired"
      · rw [if_pos h3] at h
        cases hc : PairedEndStarAligner.create args.fastqs args.ncpus
            args.ramGB args.indexdir with
        | error e => rw [hc] at h; simp [Except.map] at h
        | ok pa =>
          rw [hc] at h
          simp only [Except.map, Except.ok.injEq, Option.some.injEq] at h
          exact .inr ⟨pa, h.symm, h3, rfl⟩
      · rw [if_neg h3] at h; simp at h
  · rw [if_neg h1] at h; simp at h

/-- Inversion of a successful parse: the required flags were provided with
the parsed values, `fastqs` is passed through unchanged, and the defaulted
options resolve by `getD`. -/
theorem parse_args_inv (p : Provided) (args : Args)
    (h : parse_args p = .ok args) :
    p.aligner = some args.aligner ∧ p.endedness = some args.endedness ∧
    args.fastqs = p.fastqs ∧ args.indexdir = p.indexdir.getD "out" ∧
    args.ncpus = p.ncpus.getD 4 ∧ args.ramGB = p.ramGB.getD 8 := by
  unfold parse_args at h
  split at h
  · simp at h
  · rename_i al hA
    split at h
    · split at h
      · simp at h
      · rename_i ix hI
        split at h
        · simp at h
        · rename_i e hE
          split at h
          · simp only [Except.ok.injEq] at h
            subst h
            exact ⟨hA, hE, rfl, rfl, rfl, rfl⟩
          · simp at h
    · simp at h

/-- A command line missing any of the three required flags is rejected by
the parser. -/
theorem parse_args_missing (p : Provided)
    (h : p.aligner = none ∨ p.index = none ∨ p.endedness = none) :
    ∃ msg, parse_args p = .error msg := by
  unfold parse_args
  split
  · exact ⟨_, rfl⟩
  · rename_i al hA
    split
    · rcases h with h | h | h
      · rw [hA] at h
        simp at h
      · rw [h]
        exact ⟨_, rfl⟩
      · rcases hI : p.index with _ | ix
        · exact ⟨_, rfl⟩
        · rw [h]
          exact ⟨_, rfl⟩
    · exact ⟨_, rfl⟩

/-- A parse that passed the choices check cannot have aligner star when the
command line said tophat; `make_aligner` then returns `None`. -/
theorem make_aligner_tophat (p : Provided) (args : Args)
    (hp : p.aligner = some "tophat") (hok : parse_args p = .ok args) :
    make_aligner args = .ok none := by
  have hA := (parse_args_inv p args hok).1
  rw [hp] at hA
  have h2 : args.aligner = "tophat" := by
    injection hA with h3
    exact h3.symm
  unfold make_aligner
  rw [if_neg (by rw [h2]; decide)]

/-- C8: for every tar archive and target directory string,
`make_modified_TarInfo` returns exactly the archive members that are regular
files, in their original archive order, with each member's name rewritten to
the join of the target directory and the basename of its original name. -/
theorem C8_modified_members (archive : List TarMember) (target_dir : String) :
    make_modified_TarInfo archive target_dir =
      (archive.filter TarMember.isfile).map
        (fun m => { m with name := path_join target_dir (basename m.name) }) := by
  induction archive with
  | nil => rfl
  | cons m rest ih =>
    by_cases hf : m.isfile
    · simp [make_modified_TarInfo, List.filter_cons, hf, ih]
    · simp [make_modified_TarInfo, List.filter_cons, hf, ih]

/-- C10: constructing a `PairedEndStarAligner` on a fastqs list of length
zero or one fails with an index error, the single-ended constructor likewise
fails on an empty list, and with enough elements both constructors succeed
(the error branch is unreachable). -/
theorem C10_constructor_bounds (fs : List String) (n r : Int) (idx : String) :
    (fs.length < 2 →
      PairedEndStarAligner.create (some fs) n r idx = .error .indexError) ∧
    (2 ≤ fs.length →
      ∃ pa, PairedEndStarAligner.create (some fs) n r idx = .ok pa) ∧
    (SingleEndedStarAligner.create (some ([] : List String)) n r idx =
      .error .indexError) ∧
    (fs ≠ [] → ∃ sa, SingleEndedStarAligner.create (some fs) n r idx = .ok sa) := by
  refine ⟨?_, ?_, rfl, ?_⟩
  · intro hlen
    rcases fs with _ | ⟨a, _ | ⟨b, rest⟩⟩
    · rfl
    · rfl
    · simp at hlen
      omega
  · intro hlen
    rcases fs with _ | ⟨a, _ | ⟨b, rest⟩⟩
    · simp at hlen
    · simp at hlen
    · exact ⟨_, rfl⟩
  · intro hne
    rcases fs with _ | ⟨a, rest⟩
    · exact absurd rfl hne
    · exact ⟨_, rfl⟩

/-- Witness for C10 at concrete inputs: a one-element fastqs list makes the
paired constructor fail, and suffices for the single-ended one. -/
theorem C10_constructor_bounds_witness :
    PairedEndStarAligner.create (some ["rep1.fastq.gz"]) 4 8 "out" =
      .error .indexError ∧
    (∃ sa, SingleEndedStarAligner.create (some ["rep1.fastq.gz"]) 4 8 "out" =
      .ok sa) :=
  ⟨(C10_constructor_bounds ["rep1.fastq.gz"] 4 8 "out").1 (by decide),
   (C10_constructor_bounds ["rep1.fastq.gz"] 4 8 "out").2.2.2 (by decide)⟩

/-- C2 is a code bug: whatever status the external STAR child process exits
with, the wrapper's own exit status is 0, because `StarAligner.run` discards
the value of `subprocess.call` and `main` returns normally.  The child is
really launched on this invocation (`launched` is set), so a failing
alignment (for instance child exit 1) is reported as wrapper success,
against the claimed propagation. -/
theorem C2_exit_status_not_propagated (childExit : Int) :
    (run_program goodProvided sampleArchive childExit).exitCode = 0 ∧
    (run_program goodProvided sampleArchive childExit).launched.isSome = true :=
  ⟨rfl, rfl⟩

/-- C1 is a code bug: `main` calls `archive.extractall()` with no `members`
and no `path`, ignoring both `--indexdir` and the `make_modified_TarInfo`
helper.  On a nested archive and `--indexdir myidx` the files keep their
nested paths (`out/...`), nothing is placed under `myidx/`, and directories
are recreated — while the unused helper would have produced exactly the
flattened names the claim describes. -/
theorem C1_extraction_ignores_indexdir :
    (run_program goodProvided sampleArchive 0).extractedPaths =
      ["out", "out/genomeParameters.txt", "out/sub", "out/sub/SA"] ∧
    ((run_program goodProvided sampleArchive 0).extractedPaths.any
      fun s => "myidx".data.isPrefixOf s.data) = false ∧
    (make_modified_TarInfo sampleArchive "myidx").map TarMember.name =
      ["myidx/genomeParameters.txt", "myidx/SA"] :=
  ⟨rfl, by decide, by decide⟩

/-- C3: with aligner star, a paired invocation with two FASTQ paths makes
`make_aligner` build a `PairedEndStarAligner` whose command comes from the
paired-end template, a single invocation builds a `SingleEndedStarAligner`
from the single-ended template, and the two templates are distinct (so the
other template is never the one used). -/
theorem C3_endedness_selects_template (args : Args) (f1 f2 : String)
    (rest : List String) (hal : args.aligner = "star") :
    (args.endedness = "paired" → args.fastqs = some (f1 :: f2 :: rest) →
      make_aligner args = .ok (some (.pairedEnd
        { ncpus := args.ncpus, ramGB := args.ramGB, indexdir := args.indexdir,
          fastq_read1 := f1, fastq_read2 := f2,
          command := shlex_split (pyFormat
            (pairedFormatEnv f1 f2 args.ncpus args.ramGB args.indexdir)
            pairedCommandString) }))) ∧
    (args.endedness = "single" → args.fastqs = some (f1 :: rest) →
      make_aligner args = .ok (some (.singleEnded
        { ncpus := args.ncpus, ramGB := args.ramGB, indexdir := args.indexdir,
          input_fastq := f1,
          command := shlex_split (pyFormat
            (singleFormatEnv f1 args.ncpus args.ramGB args.indexdir)
            singleCommandString) }))) ∧
    singleCommandString ≠ pairedCommandString := by
  refine ⟨?_, ?_, by decide⟩
  · intro he hf
    unfold make_aligner
    rw [if_pos hal, if_neg (by rw [he]; decide), if_pos he, hf]
    rfl
  · intro he hf
    unfold make_aligner
    rw [if_pos hal, if_pos he, hf]
    rfl

/-- Witness for C3: a concrete paired invocation builds the paired-end
aligner with the paired template. -/
theorem C3_endedness_selects_template_witness :
    make_aligner
      { fastqs := some ["rep1.fastq.gz", "rep2.fastq.gz"], aligner := "star",
        index := "index.tgz", indexdir := "out", endedness := "paired",
        libraryid := "libraryID", bamroot := "out_bam", ncpus := 4, ramGB := 8 } =
      .ok (some (.pairedEnd
        { ncpus := 4, ramGB := 8, indexdir := "out",
          fastq_read1 := "rep1.fastq.gz", fastq_read2 := "rep2.fastq.gz",
          command := shlex_split (pyFormat
            (pairedFormatEnv "rep1.fastq.gz" "rep2.fastq.gz" 4 8 "out")
            pairedCommandString) })) :=
  (C3_endedness_selects_template
    { fastqs := some ["rep1.fastq.gz", "rep2.fastq.gz"], aligner := "star",
      index := "index.tgz", indexdir := "out", endedness := "paired",
      libraryid := "libraryID", bamroot := "out_bam", ncpus := 4, ramGB := 8 }
    "rep1.fastq.gz" "rep2.fastq.gz" [] rfl).1 rfl rfl

/-- C4: with ncpus 8 and ramGB 16, either constructed aligner's token vector
contains the contiguous pairs `--runThreadN 8` and
`--limitBAMsortRAM 16000000000`.  The paths are required to be free of
shlex quoting characters, the regime on which `shlex_split` models
`shlex.split`. -/
theorem C4_resource_tokens (args : Args) (a : StarAligner)
    (h8 : args.ncpus = 8) (h16 : args.ramGB = 16)
    (_hplain : (args.fastqs.getD []).all shlexPlain = true ∧
      shlexPlain args.indexdir = true)
    (ha : make_aligner args = .ok (some a)) :
    ContainsPair a.command "--runThreadN" "8" ∧
    ContainsPair a.command "--limitBAMsortRAM" "16000000000" := by
  rcases make_aligner_cases args a ha with ⟨sa, rfl, _, hc⟩ | ⟨pa, rfl, _, hc⟩
  · have hcmd := single_create_inv _ _ _ _ _ hc
    rw [h8, h16] at hcmd
    simp only [StarAligner.command]
    rw [hcmd]
    exact single_cmd_pairs _ _
  · have hcmd := paired_create_inv _ _ _ _ _ hc
    rw [h8, h16] at hcmd
    simp only [StarAligner.command]
    rw [hcmd]
    exact paired_cmd_pairs _ _ _

/-- Witness for C4 at a concrete paired invocation with ncpus 8, ramGB 16. -/
theorem C4_resource_tokens_witness :
    ContainsPair (StarAligner.command (.pairedEnd
      { ncpus := 8, ramGB := 16, indexdir := "myidx",
        fastq_read1 := "rep1.fastq.gz", fastq_read2 := "rep2.fastq.gz",
        command := shlex_split (pyFormat
          (pairedFormatEnv "rep1.fastq.gz" "rep2.fastq.gz" 8 16 "myidx")
          pairedCommandString) })) "--runThreadN" "8" ∧
    ContainsPair (StarAligner.command (.pairedEnd
      { ncpus := 8, ramGB := 16, indexdir := "myidx",
        fastq_read1 := "rep1.fastq.gz", fastq_read2 := "rep2.fastq.gz",
        command := shlex_split (pyFormat
          (pairedFormatEnv "rep1.fastq.gz" "rep2.fastq.gz" 8 16 "myidx")
          pairedCommandString) })) "--limitBAMsortRAM" "16000000000" :=
  C4_resource_tokens
    { fastqs := some ["rep1.fastq.gz", "rep2.fastq.gz"], aligner := "star",
      index := "index.tgz", indexdir := "myidx", endedness := "paired",
      libraryid := "libraryID", bamroot := "out_bam", ncpus := 8, ramGB := 16 }
    (.pairedEnd
      { ncpus := 8, ramGB := 16, indexdir := "myidx",
        fastq_read1 := "rep1.fastq.gz", fastq_read2 := "rep2.fastq.gz",
        command := shlex_split (pyFormat
          (pairedFormatEnv "rep1.fastq.gz" "rep2.fastq.gz" 8 16 "myidx")
          pairedCommandString) })
    rfl rfl ⟨by decide, by decide⟩ rfl

/-- C9: two argument records that agree on everything except `libraryid` and
`bamroot` yield the same `make_aligner` result, command vector included:
neither flag influences any computed value. -/
theorem C9_unused_flags (a1 a2 : Args)
    (hf : a1.fastqs = a2.fastqs) (hal : a1.aligner = a2.aligner)
    (_hix : a1.index = a2.index) (hid : a1.indexdir = a2.indexdir)
    (he : a1.endedness = a2.endedness) (hn : a1.ncpus = a2.ncpus)
    (hr : a1.ramGB = a2.ramGB) :
    make_aligner a1 = make_aligner a2 := by
  unfold make_aligner
  rw [hal, he, hf, hn, hr, hid]

/-- Witness for C9: changing only `libraryid` and `bamroot` leaves the
constructed aligner unchanged. -/
theorem C9_unused_flags_witness :
    make_aligner
      { fastqs := some ["rep1.fastq.gz"], aligner := "star",
        index := "index.tgz", indexdir := "out", endedness := "single",
        libraryid := "libA", bamroot := "bamA", ncpus := 4, ramGB := 8 } =
    make_aligner
      { fastqs := some ["rep1.fastq.gz"], aligner := "star",
        index := "index.tgz", indexdir := "out", endedness := "single",
        libraryid := "libB", bamroot := "bamB", ncpus := 4, ramGB := 8 } :=
  C9_unused_flags _ _ rfl rfl rfl rfl rfl rfl rfl

/-- A rejected command line produces the empty trace: no extraction, no
child process, exit status 2. -/
theorem run_program_parse_error (p : Provided) (archive : List TarMember)
    (c : Int) (msg : String) (h : parse_args p = .error msg) :
    run_program p archive c =
      { extractedPaths := [], launched := none, exitCode := 2 } := by
  unfold run_program
  rw [h]

/-- When `make_aligner` returns `None`, the archive has already been
extracted, no child is launched, and the `AttributeError` exits 1. -/
theorem run_program_aligner_none (p : Provided) (archive : List TarMember)
    (c : Int) (args : Args) (hpr : parse_args p = .ok args)
    (hma : make_aligner args = .ok none) :
    run_program p archive c =
      { extractedPaths := extractall archive, launched := none,
        exitCode := 1 } := by
  have hstep : run_program p archive c = py_main args archive c := by
    unfold run_program
    rw [hpr]
  rw [hstep]
  unfold py_main
  rw [hma]

/-- C5 counterexample: a command line omitting `--fastqs` (all truly
required flags present) is accepted by the parser — no usage error, no
non-zero exit — because the `--fastqs` option is declared without
`required=True`; the namespace carries `fastqs = None`. -/
theorem C5_fastqs_not_required_cex :
    parse_args
      { fastqs := none, aligner := some "star", index := some "index.tgz",
        indexdir := none, endedness := some "single", libraryid := none,
        bamroot := none, ncpus := none, ramGB := none } =
      .ok { fastqs := none, aligner := "star", index := "index.tgz",
            indexdir := "out", endedness := "single", libraryid := "libraryID",
            bamroot := "out_bam", ncpus := 4, ramGB := 8 } := rfl

/-- C5 amended: omitting `--fastqs` passes the parser with `fastqs = None`;
the program then extracts the archive (a filesystem side effect) and only
afterwards dies with an uncaught `TypeError` (exit 1, no aligner launched)
when the constructor subscripts the missing value. -/
theorem C5_fastqs_omission_accepted (p : Provided) (archive : List TarMember)
    (c : Int) (i : String)
    (hf : p.fastqs = none) (ha : p.aligner = some "star")
    (hi : p.index = some i)
    (he : p.endedness = some "paired" ∨ p.endedness = some "single") :
    (∃ args, parse_args p = .ok args ∧ args.fastqs = none) ∧
    (run_program p archive c).extractedPaths = extractall archive ∧
    (run_program p archive c).launched = none ∧
    (run_program p archive c).exitCode = 1 := by
  rcases he with he | he
  · have hpar : parse_args p = .ok
        { fastqs := none, aligner := "star", index := i,
          indexdir := p.indexdir.getD "out", endedness := "paired",
          libraryid := p.libraryid.getD "libraryID",
          bamroot := p.bamroot.getD "out_bam",
          ncpus := p.ncpus.getD 4, ramGB := p.ramGB.getD 8 } := by
      unfold parse_args
      rw [ha, hi, he, hf]
      rfl
    have hrun : run_program p archive c =
        { extractedPaths := extractall archive, launched := none,
          exitCode := 1 } := by
      unfold run_program
      rw [hpar]
      rfl
    exact ⟨⟨_, hpar, rfl⟩, by rw [hrun], by rw [hrun], by rw [hrun]⟩
  · have hpar : parse_args p = .ok
        { fastqs := none, aligner := "star", index := i,
          indexdir := p.indexdir.getD "out", endedness := "single",
          libraryid := p.libraryid.getD "libraryID",
          bamroot := p.bamroot.getD "out_bam",
          ncpus := p.ncpus.getD 4, ramGB := p.ramGB.getD 8 } := by
      unfold parse_args
      rw [ha, hi, he, hf]
      rfl
    have hrun : run_program p archive c =
        { extractedPaths := extractall archive, launched := none,
          exitCode := 1 } := by
      unfold run_program
      rw [hpar]
      rfl
    exact ⟨⟨_, hpar, rfl⟩, by rw [hrun], by rw [hrun], by rw [hrun]⟩

/-- Witness for the amended C5 at a concrete command line and archive. -/
theorem C5_fastqs_omission_accepted_witness :
    (∃ args, parse_args
      { fastqs := none, aligner := some "star", index := some "index.tgz",
        indexdir := none, endedness := some "single", libraryid := none,
        bamroot := none, ncpus := none, ramGB := none } = .ok args ∧
      args.fastqs = none) ∧
    (run_program
      { fastqs := none, aligner := some "star", index := some "index.tgz",
        indexdir := none, endedness := some "single", libraryid := none,
        bamroot := none, ncpus := none, ramGB := none }
      sampleArchive 0).extractedPaths = extractall sampleArchive ∧
    (run_program
      { fastqs := none, aligner := some "star", index := some "index.tgz",
        indexdir := none, endedness := some "single", libraryid := none,
        bamroot := none, ncpus := none, ramGB := none }
      sampleArchive 0).launched = none ∧
    (run_program
      { fastqs := none, aligner := some "star", index := some "index.tgz",
        indexdir := none, endedness := some "single", libraryid := none,
        bamroot := none, ncpus := none, ramGB := none }
      sampleArchive 0).exitCode = 1 :=
  C5_fastqs_omission_accepted
    { fastqs := none, aligner := some "star", index := some "index.tgz",
      indexdir := none, endedness := some "single", libraryid := none,
      bamroot := none, ncpus := none, ramGB := none }
    sampleArchive 0 "index.tgz" rfl rfl rfl (Or.inr rfl)

/-- C6: a command line missing `--aligner`, `--index` or `--endedness` is
rejected by the parser, and the whole run performs no extraction, launches
no child process, and exits with the non-zero argparse status 2. -/
theorem C6_required_flags (p : Provided) (archive : List TarMember) (c : Int)
    (h : p.aligner = none ∨ p.index = none ∨ p.endedness = none) :
    (∃ msg, parse_args p = .error msg) ∧
    run_program p archive c =
      { extractedPaths := [], launched := none, exitCode := 2 } ∧
    (run_program p archive c).exitCode ≠ 0 := by
  obtain ⟨msg, hm⟩ := parse_args_missing p h
  have hrun := run_program_parse_error p archive c msg hm
  exact ⟨⟨msg, hm⟩, hrun, by rw [hrun]; decide⟩

/-- Witness for C6: omitting `--aligner` alone already yields the empty
trace with exit status 2. -/
theorem C6_required_flags_witness :
    (∃ msg, parse_args
      { fastqs := some ["rep1.fastq.gz"], aligner := none,
        index := some "index.tgz", indexdir := none,
        endedness := some "single", libraryid := none, bamroot := none,
        ncpus := none, ramGB := none } = .error msg) ∧
    run_program
      { fastqs := some ["rep1.fastq.gz"], aligner := none,
        index := some "index.tgz", indexdir := none,
        endedness := some "single", libraryid := none, bamroot := none,
        ncpus := none, ramGB := none } sampleArchive 0 =
      { extractedPaths := [], launched := none, exitCode := 2 } ∧
    (run_program
      { fastqs := some ["rep1.fastq.gz"], aligner := none,
        index := some "index.tgz", indexdir := none,
        endedness := some "single", libraryid := none, bamroot := none,
        ncpus := none, ramGB := none } sampleArchive 0).exitCode ≠ 0 :=
  C6_required_flags
    { fastqs := some ["rep1.fastq.gz"], aligner := none,
      index := some "index.tgz", indexdir := none,
      endedness := some "single", libraryid := none, bamroot := none,
      ncpus := none, ramGB := none } sampleArchive 0 (Or.inl rfl)

/-- C7: on any command line selecting `--aligner tophat`, every successful
parse makes the factory return no aligner (`None`), and the run launches no
child process and exits non-zero (status 2 on a parse error, else status 1
from the `AttributeError` on `None.run()`). -/
theorem C7_tophat_fails (p : Provided) (archive : List TarMember) (c : Int)
    (h : p.aligner = some "tophat") :
    (∀ args, parse_args p = .ok args → make_aligner args = .ok none) ∧
    (run_program p archive c).launched = none ∧
    (run_program p archive c).exitCode ≠ 0 := by
  refine ⟨fun args hok => make_aligner_tophat p args h hok, ?_⟩
  cases hpr : parse_args p with
  | error msg =>
    have hrun := run_program_parse_error p archive c msg hpr
    rw [hrun]
    exact ⟨rfl, by show (2 : Int) ≠ 0; decide⟩
  | ok args =>
    have hma := make_aligner_tophat p args h hpr
    have hrun := run_program_aligner_none p archive c args hpr hma
    rw [hrun]
    exact ⟨rfl, by show (1 : Int) ≠ 0; decide⟩

/-- Witness for C7: a fully specified tophat invocation reaches the factory,
gets no aligner back, and dies without launching anything. -/
theorem C7_tophat_fails_witness :
    (∀ args, parse_args
      { fastqs := some ["rep1.fastq.gz"], aligner := some "tophat",
        index := some "index.tgz", indexdir := none,
        endedness := some "single", libraryid := none, bamroot := none,
        ncpus := none, ramGB := none } = .ok args →
      make_aligner args = .ok none) ∧
    (run_program
      { fastqs := some ["rep1.fastq.gz"], aligner := some "tophat",
        index := some "index.tgz", indexdir := none,
        endedness := some "single", libraryid := none, bamroot := none,
        ncpus := none, ramGB := none } sampleArchive 0).launched = none ∧
    (run_program
      { fastqs := some ["rep1.fastq.gz"], aligner := some "tophat",
        index := some "index.tgz", indexdir := none,
        endedness := some "single", libraryid := none, bamroot := none,
        ncpus := none, ramGB := none } sampleArchive 0).exitCode ≠ 0 :=
  C7_tophat_fails
    { fastqs := some ["rep1.fastq.gz"], aligner := some "tophat",
      index := some "index.tgz", indexdir := none,
      endedness := some "single", libraryid := none, bamroot := none,
      ncpus := none, ramGB := none } sampleArchive 0 rfl
